import Mathlib

/-!
Verification of the WebCrawlerAPI Python SDK (`src/webcrawlerapi/client.py`)
against its natural-language specification.

The client is a synchronous polling wrapper around a remote HTTP API.  We
embed the client's control logic shallowly:

* HTTP calls are modelled by injected outcome streams
  (`Nat → Except HttpError α`): the i-th element is what the i-th request of
  that kind returns — either a parsed payload (2xx) or the transport layer's
  error, exactly as `requests` + `raise_for_status` present it to the caller.
* The blocking loops (`WebCrawlerAPI.crawl`, `WebCrawlerAPI.scrape`) become
  recursive functions over those streams that additionally record the number
  of fetches issued and the sequence of sleep durations, so that claims about
  "no further fetch or sleep" and about the inter-poll delay are statable.
* Python exceptions become an `ApiError` sum: a propagated transport error
  (carried unchanged), a `RuntimeError` with its message, or the
  `UnboundLocalError` that a `return` of a never-assigned local raises.
* Sleep durations are rationals (Python computes `ms / 1000` with true
  division; the values involved are exact decimals).

`models.py` is imported by the client but is not part of the provided source.
The definitions that stand in for it (`Job`, `ScrapeResult`, and
`Job.is_terminal`) are modelled from the spec and are marked as such.
-/

/-- Modelled from the spec: the `Job` response model lives in the missing
`models.py`.  Only the attributes the client's polling loop consults are
modelled: a status string, the optional server delay hint
(`none` = attribute absent / `None`), plus the job id so that distinct
snapshots are distinguishable. -/
structure Job where
  id : String
  status : String
  recommended_pull_delay_ms : Option Nat
  deriving Repr, DecidableEq

/-- Modelled from the spec: "Terminal states: done, error, cancelled" and
"A Job's terminal-state predicate evaluates status membership in the terminal
set" (`Job.is_terminal` in the missing `models.py`). -/
def Job.is_terminal (j : Job) : Bool :=
  j.status == "done" || j.status == "error" || j.status == "cancelled"

/-- Modelled from the spec: the `ScrapeResult` response model lives in the
missing `models.py`.  `error = none` and `recommended_pull_delay_ms = none`
model the attribute being absent (`hasattr` false); `structured_data` is the
opaque scraper payload. -/
structure ScrapeResult where
  id : String
  status : String
  structured_data : String
  error : Option String
  recommended_pull_delay_ms : Option Nat
  deriving Repr, DecidableEq

/-- `CrawlResponse` wraps the job id returned by the crawl-start endpoint. -/
structure CrawlResponse where
  id : String
  deriving Repr, DecidableEq

/-- `ScrapeResponse` wraps the scrape id returned by the scrape-start
endpoint. -/
structure ScrapeResponse where
  id : String
  deriving Repr, DecidableEq

/-- A transport-layer error: what `requests.Response.raise_for_status` raises
for an error response, carrying status code and body. -/
structure HttpError where
  status_code : Nat
  body : String
  deriving Repr, DecidableEq

/-- The exceptions a blocking client call can let escape: a transport error
propagated unchanged, a `RuntimeError` with its message, or Python's
`UnboundLocalError` for a `return` of a never-assigned local variable. -/
inductive ApiError where
  | transport (e : HttpError)
  | runtimeError (msg : String)
  | unboundLocal (varName : String)
  deriving Repr, DecidableEq

/-- `WebCrawlerAPI.DEFAULT_POLL_DELAY_SECONDS = 5`. -/
def DEFAULT_POLL_DELAY_SECONDS : ℚ := 5

/-- The delay computation inside `WebCrawlerAPI.crawl` (client.py:181-185):
`job.recommended_pull_delay_ms / 1000 if job.recommended_pull_delay_ms else
self.DEFAULT_POLL_DELAY_SECONDS`.  Python truthiness: both `None` and `0`
select the default. -/
def crawlDelaySeconds (j : Job) : ℚ :=
  match j.recommended_pull_delay_ms with
  | some ms => if ms ≠ 0 then (ms : ℚ) / 1000 else DEFAULT_POLL_DELAY_SECONDS
  | none => DEFAULT_POLL_DELAY_SECONDS

/-- The delay computation inside `WebCrawlerAPI.scrape` (client.py:297-301):
`result.recommended_pull_delay_ms / 1000 if hasattr(result,
'recommended_pull_delay_ms') and result.recommended_pull_delay_ms else
self.DEFAULT_POLL_DELAY_SECONDS`. -/
def scrapeDelaySeconds (r : ScrapeResult) : ℚ :=
  match r.recommended_pull_delay_ms with
  | some ms => if ms ≠ 0 then (ms : ℚ) / 1000 else DEFAULT_POLL_DELAY_SECONDS
  | none => DEFAULT_POLL_DELAY_SECONDS

instance {ε α : Type} [DecidableEq ε] [DecidableEq α] : DecidableEq (Except ε α) :=
  fun x y =>
    match x, y with
    | .ok a, .ok b =>
      if h : a = b then isTrue (congrArg Except.ok h)
      else isFalse (fun hc => h (Except.ok.inj hc))
    | .error a, .error b =>
      if h : a = b then isTrue (congrArg Except.error h)
      else isFalse (fun hc => h (Except.error.inj hc))
    | .ok _, .error _ => isFalse (fun hc => Except.noConfusion hc)
    | .error _, .ok _ => isFalse (fun hc => Except.noConfusion hc)

/-- Observable trace of one run of `WebCrawlerAPI.crawl`'s polling phase:
the outcome (returned `Job` or escaped exception), the number of `get_job`
requests issued, and the sleep durations in order. -/
structure CrawlRun where
  result : Except ApiError Job
  fetches : Nat
  sleeps : List ℚ
  deriving Repr, DecidableEq

/-- The `while polls < max_polls` loop of `WebCrawlerAPI.crawl`
(client.py:173-191), by remaining iterations.  `getJob i` is the outcome of
the i-th `get_job` call; `last` is the current value of the local variable
`job` (`none` = not yet assigned).  On loop exit the function executes
`return job`, which raises `UnboundLocalError` when the loop body never
ran. -/
def crawlLoopAux (getJob : Nat → Except HttpError Job) :
    Nat → Nat → Option Job → CrawlRun
  | _, 0, some j => { result := .ok j, fetches := 0, sleeps := [] }
  | _, 0, none => { result := .error (.unboundLocal "job"), fetches := 0, sleeps := [] }
  | idx, r + 1, _ =>
    match getJob idx with
    | .error e => { result := .error (.transport e), fetches := 1, sleeps := [] }
    | .ok j =>
      if j.is_terminal then
        { result := .ok j, fetches := 1, sleeps := [] }
      else
        let rest := crawlLoopAux getJob (idx + 1) r (some j)
        { result := rest.result
          fetches := rest.fetches + 1
          sleeps := crawlDelaySeconds j :: rest.sleeps }

/-- The polling phase of `WebCrawlerAPI.crawl` after a successful start:
`polls = 0`, the local `job` unassigned, and `max_polls` a Python int (a
non-positive value means the loop body never executes). -/
def crawl_run (getJob : Nat → Except HttpError Job) (max_polls : Int) : CrawlRun :=
  crawlLoopAux getJob 0 max_polls.toNat none

/-- `WebCrawlerAPI.crawl` end to end: `crawl_async` first (its transport
error aborts the call with zero job fetches), then the polling loop. -/
def crawl_model (startResult : Except HttpError CrawlResponse)
    (getJob : Nat → Except HttpError Job) (max_polls : Int) : CrawlRun :=
  match startResult with
  | .error e => { result := .error (.transport e), fetches := 0, sleeps := [] }
  | .ok _ => crawl_run getJob max_polls





/-- The message of the `RuntimeError` that `WebCrawlerAPI.scrape` raises on an
"error" status (client.py:294): `f"Scraping failed: {result.error if
hasattr(result, 'error') else 'Unknown error'}"`. -/
def scrapeErrorMessage (r : ScrapeResult) : String :=
  "Scraping failed: " ++
    match r.error with
    | some e => e
    | none => "Unknown error"

/-- Observable trace of one run of `WebCrawlerAPI.scrape`'s polling phase:
the outcome (the returned `structured_data` or the escaped exception), the
number of `get_scrape` requests issued, and the sleep durations in order. -/
structure ScrapeRun where
  result : Except ApiError String
  fetches : Nat
  sleeps : List ℚ
  deriving Repr, DecidableEq

/-- The `while polls < max_polls` loop of `WebCrawlerAPI.scrape`
(client.py:285-306), by remaining iterations.  `getScrape i` is the outcome
of the i-th `get_scrape` call.  On "done" the loop returns
`result.structured_data`; on "error" it raises a `RuntimeError`; when the
budget is exhausted it raises `RuntimeError("Maximum number of polls reached
without completion")`. -/
def scrapeLoopAux (getScrape : Nat → Except HttpError ScrapeResult) :
    Nat → Nat → ScrapeRun
  | _, 0 =>
    { result := .error (.runtimeError "Maximum number of polls reached without completion")
      fetches := 0, sleeps := [] }
  | idx, r + 1 =>
    match getScrape idx with
    | .error e => { result := .error (.transport e), fetches := 1, sleeps := [] }
    | .ok res =>
      if res.status == "done" then
        { result := .ok res.structured_data, fetches := 1, sleeps := [] }
      else if res.status == "error" then
        { result := .error (.runtimeError (scrapeErrorMessage res)), fetches := 1, sleeps := [] }
      else
        let rest := scrapeLoopAux getScrape (idx + 1) r
        { result := rest.result
          fetches := rest.fetches + 1
          sleeps := scrapeDelaySeconds res :: rest.sleeps }

/-- The polling phase of `WebCrawlerAPI.scrape` after a successful start.
Note that a non-positive `max_polls` also raises the budget-exhaustion
`RuntimeError` (the raise sits after the loop, no local is read). -/
def scrape_run (getScrape : Nat → Except HttpError ScrapeResult) (max_polls : Int) : ScrapeRun :=
  scrapeLoopAux getScrape 0 max_polls.toNat

/-- `WebCrawlerAPI.scrape` end to end: `scrape_async` first (its transport
error aborts the call with zero result fetches), then the polling loop. -/
def scrape_model (startResult : Except HttpError ScrapeResponse)
    (getScrape : Nat → Except HttpError ScrapeResult) (max_polls : Int) : ScrapeRun :=
  match startResult with
  | .error e => { result := .error (.transport e), fetches := 0, sleeps := [] }
  | .ok _ => scrape_run getScrape max_polls

/-- A JSON scalar as placed into the crawl-start request body. -/
inductive JsonValue where
  | str (s : String)
  | int (n : Int)
  | bool (b : Bool)
  deriving Repr, DecidableEq

/-- The request body built by `WebCrawlerAPI.crawl_async` (client.py:65-77),
as an ordered key/value list.  The four required fields are always present;
each optional argument is added only when Python finds it truthy
(`if webhook_url:` etc.), so `None` and the empty string are both omitted. -/
def crawl_async_payload (url scrape_type : String) (items_limit : Int)
    (allow_subdomains : Bool)
    (webhook_url whitelist_regexp blacklist_regexp : Option String) :
    List (String × JsonValue) :=
  let base : List (String × JsonValue) :=
    [("url", .str url), ("scrape_type", .str scrape_type),
     ("items_limit", .int items_limit), ("allow_subdomains", .bool allow_subdomains)]
  let p1 := base ++
    match webhook_url with
    | some w => if w ≠ "" then [("webhook_url", JsonValue.str w)] else []
    | none => []
  let p2 := p1 ++
    match whitelist_regexp with
    | some w => if w ≠ "" then [("whitelist_regexp", JsonValue.str w)] else []
    | none => []
  p2 ++
    match blacklist_regexp with
    | some b => if b ≠ "" then [("blacklist_regexp", JsonValue.str b)] else []
    | none => []

/-- Does `l` start with `p`? (used to define substring containment). -/
def startsList : List Char → List Char → Bool
  | _, [] => true
  | [], _ :: _ => false
  | c :: cs, d :: ds => c == d && startsList cs ds

/-- Does `needle` occur contiguously inside `hay`? -/
def listContains (hay needle : List Char) : Bool :=
  match hay with
  | [] => startsList [] needle
  | _ :: cs => startsList hay needle || listContains cs needle

/-- Substring containment on strings. -/
def strContains (hay needle : String) : Bool :=
  listContains hay.data needle.data


/-- The spec's delay-selection rule, stated from its words: "when
`recommended_pull_delay_ms` is present and nonzero, the computed inter-poll
delay equals that value divided by 1000; when absent or zero, the default
delay (5 seconds) is used".  To be compared with the code-derived
`crawlDelaySeconds` / `scrapeDelaySeconds`. -/
def specDelaySeconds (delay_hint : Option Nat) : ℚ :=
  match delay_hint with
  | some ms => if ms = 0 then 5 else (ms : ℚ) / 1000
  | none => 5

/-- Python's `str.rstrip('/')` as used on the base URL in
`WebCrawlerAPI.__init__` (client.py:29). -/
def rstripSlash (s : String) : String :=
  ⟨(s.data.reverse.dropWhile (· = '/')).reverse⟩

/-- Split a character list at the first occurrence of `://`, returning the
text before and after it.  Helper for the `urljoin` model. -/
def splitSchemeSep : List Char → Option (List Char × List Char)
  | [] => none
  | c :: cs =>
    if startsList (c :: cs) [':', '/', '/'] then some ([], cs.drop 2)
    else (splitSchemeSep cs).map (fun p => (c :: p.1, p.2))

/-- Modelled from `urllib.parse.urljoin` (Python standard library, not part
of this repository), restricted to the shapes this client produces: the
reference is always an absolute-path reference `"/{version}/..."`, and the
configured base is an absolute URL `scheme://netloc[/path]`.  RFC 3986
resolution then keeps the base's scheme and network location and replaces
the base's entire path with the reference. -/
def urljoinModel (base ref : String) : String :=
  match splitSchemeSep base.data with
  | some (scheme, rest) =>
    ⟨scheme ++ [':', '/', '/'] ++ rest.takeWhile (· ≠ '/') ++ ref.data⟩
  | none => ref

/-- `self.base_url` after `WebCrawlerAPI.__init__` (client.py:29): the
caller-supplied base URL with trailing slashes stripped. -/
def clientBaseUrl (base_url : String) : String :=
  rstripSlash base_url

/-- The URL of a client request:
`urljoin(self.base_url, f"/{self.version}/<tail>")`, where `<tail>` is
`crawl`, `job/{job_id}`, `job/{job_id}/cancel`, `scrape`, or
`scrape/{scrape_id}` (client.py:80, 100, 120, 222, 242). -/
def requestUrl (base_url version tail : String) : String :=
  urljoinModel (clientBaseUrl base_url) ("/" ++ version ++ "/" ++ tail)



/-- `WebCrawlerAPI.cancel_job` (client.py:105-123): a single PUT followed by
`raise_for_status`; the injected `resp` is the transport outcome (parsed
confirmation body on 2xx, the transport error otherwise). -/
def cancel_job_model (resp : Except HttpError String) : Except ApiError String :=
  match resp with
  | .error e => .error (.transport e)
  | .ok body => .ok body

/-- `WebCrawlerAPI.get_job` (client.py:86-103) as a one-shot call. -/
def get_job_model (resp : Except HttpError Job) : Except ApiError Job :=
  match resp with
  | .error e => .error (.transport e)
  | .ok j => .ok j

/-- `WebCrawlerAPI.get_scrape` (client.py:228-245) as a one-shot call. -/
def get_scrape_model (resp : Except HttpError ScrapeResult) : Except ApiError ScrapeResult :=
  match resp with
  | .error e => .error (.transport e)
  | .ok r => .ok r

/-- `WebCrawlerAPI.crawl_async`'s request/response step (client.py:79-84):
POST, `raise_for_status`, then wrap the returned job id. -/
def crawl_async_model (resp : Except HttpError String) : Except ApiError CrawlResponse :=
  match resp with
  | .error e => .error (.transport e)
  | .ok job_id => .ok ⟨job_id⟩

/-- `WebCrawlerAPI.scrape_async`'s request/response step (client.py:221-226). -/
def scrape_async_model (resp : Except HttpError String) : Except ApiError ScrapeResponse :=
  match resp with
  | .error e => .error (.transport e)
  | .ok scrape_id => .ok ⟨scrape_id⟩

/-! ## General lemmas about the polling loops -/

/-- Splitting a crawl-poll run: as long as the first `k` fetches succeed with
non-terminal snapshots, the loop performs those `k` fetch/sleep iterations
and then continues with the budget reduced by `k` and the local `job` bound
to the `k`-th snapshot. -/
lemma crawlLoopAux_skip (getJob : Nat → Except HttpError Job) (jobs : Nat → Job) :
    ∀ (k idx r : Nat) (last : Option Job),
      (∀ i, i < k → getJob (idx + i) = .ok (jobs (idx + i))) →
      (∀ i, i < k → (jobs (idx + i)).is_terminal = false) →
      crawlLoopAux getJob idx (k + r) last =
        { result := (crawlLoopAux getJob (idx + k) r
            (if k = 0 then last else some (jobs (idx + k - 1)))).result
          fetches := (crawlLoopAux getJob (idx + k) r
            (if k = 0 then last else some (jobs (idx + k - 1)))).fetches + k
          sleeps := (List.range k).map (fun i => crawlDelaySeconds (jobs (idx + i))) ++
            (crawlLoopAux getJob (idx + k) r
              (if k = 0 then last else some (jobs (idx + k - 1)))).sleeps } := by
  intro k
  induction k with
  | zero =>
    intro idx r last _ _
    simp
  | succ k ih =>
    intro idx r last hok hnt
    have hstep : k + 1 + r = (k + r) + 1 := by omega
    rw [hstep]
    have h0 : getJob idx = .ok (jobs idx) := by
      have h := hok 0 (by omega)
      simpa using h
    have hnt0 : (jobs idx).is_terminal = false := by
      have h := hnt 0 (by omega)
      simpa using h
    have hrec := ih (idx + 1) r (some (jobs idx))
      (fun i hi => by
        have h := hok (i + 1) (by omega)
        rw [show idx + 1 + i = idx + (i + 1) from by omega]
        exact h)
      (fun i hi => by
        have h := hnt (i + 1) (by omega)
        rw [show idx + 1 + i = idx + (i + 1) from by omega]
        exact h)
    have hlast : (if k = 0 then some (jobs idx) else some (jobs (idx + 1 + k - 1))) =
        some (jobs (idx + k)) := by
      by_cases hk : k = 0
      · subst hk; simp
      · rw [if_neg hk, show idx + 1 + k - 1 = idx + k from by omega]
    have hidx : idx + 1 + k = idx + (k + 1) := by omega
    have hmap : (List.range (k + 1)).map (fun i => crawlDelaySeconds (jobs (idx + i))) =
        crawlDelaySeconds (jobs idx) ::
          (List.range k).map (fun i => crawlDelaySeconds (jobs (idx + 1 + i))) := by
      rw [List.range_succ_eq_map, List.map_cons, List.map_map]
      refine congrArg₂ _ (by simp) ?_
      refine List.map_congr_left fun a _ => ?_
      simp only [Function.comp_apply]
      rw [show idx + Nat.succ a = idx + 1 + a from by omega]
    simp only [crawlLoopAux, h0, hnt0, Bool.false_eq_true, if_false]
    rw [hrec, hlast] at *
    simp only [hidx] at *
    simp [hmap, hlast, hidx]
    omega

/-- Splitting a scrape-poll run: as long as the first `k` fetches succeed
with results that are neither "done" nor "error", the loop performs those
`k` fetch/sleep iterations and then continues with the budget reduced
by `k`. -/
lemma scrapeLoopAux_skip (getScrape : Nat → Except HttpError ScrapeResult)
    (results : Nat → ScrapeResult) :
    ∀ (k idx r : Nat),
      (∀ i, i < k → getScrape (idx + i) = .ok (results (idx + i))) →
      (∀ i, i < k → (results (idx + i)).status ≠ "done" ∧
        (results (idx + i)).status ≠ "error") →
      scrapeLoopAux getScrape idx (k + r) =
        { result := (scrapeLoopAux getScrape (idx + k) r).result
          fetches := (scrapeLoopAux getScrape (idx + k) r).fetches + k
          sleeps := (List.range k).map (fun i => scrapeDelaySeconds (results (idx + i))) ++
            (scrapeLoopAux getScrape (idx + k) r).sleeps } := by
  intro k
  induction k with
  | zero =>
    intro idx r _ _
    simp
  | succ k ih =>
    intro idx r hok hst
    have hstep : k + 1 + r = (k + r) + 1 := by omega
    rw [hstep]
    have h0 : getScrape idx = .ok (results idx) := by
      have h := hok 0 (by omega)
      simpa using h
    have hd0 : ((results idx).status == "done") = false := by
      have h := (hst 0 (by omega)).1
      simpa using h
    have he0 : ((results idx).status == "error") = false := by
      have h := (hst 0 (by omega)).2
      simpa using h
    have hrec := ih (idx + 1) r
      (fun i hi => by
        have h := hok (i + 1) (by omega)
        rw [show idx + 1 + i = idx + (i + 1) from by omega]
        exact h)
      (fun i hi => by
        have h := hst (i + 1) (by omega)
        rw [show idx + 1 + i = idx + (i + 1) from by omega]
        exact h)
    have hidx : idx + 1 + k = idx + (k + 1) := by omega
    have hmap : (List.range (k + 1)).map (fun i => scrapeDelaySeconds (results (idx + i))) =
        scrapeDelaySeconds (results idx) ::
          (List.range k).map (fun i => scrapeDelaySeconds (results (idx + 1 + i))) := by
      rw [List.range_succ_eq_map, List.map_cons, List.map_map]
      refine congrArg₂ _ (by simp) ?_
      refine List.map_congr_left fun a _ => ?_
      simp only [Function.comp_apply]
      rw [show idx + Nat.succ a = idx + 1 + a from by omega]
    simp only [scrapeLoopAux, h0, hd0, he0, Bool.false_eq_true, if_false]
    rw [hrec]
    simp only [hidx] at *
    simp [hmap]
    omega

lemma startsList_self (l : List Char) : startsList l l = true := by
  induction l with
  | nil => rfl
  | cons c cs ih => simp [startsList, ih]

/-- A list contains its own suffix: used to show the scrape error message
contains the server-supplied error text. -/
lemma listContains_append_self (xs ys : List Char) :
    listContains (xs ++ ys) ys = true := by
  induction xs with
  | nil =>
    cases ys with
    | nil => rfl
    | cons c cs => simp [listContains, startsList_self]
  | cons x xs ih => simp [listContains, ih]

lemma crawlDelaySeconds_eq_spec (j : Job) :
    crawlDelaySeconds j = specDelaySeconds j.recommended_pull_delay_ms := by
  unfold crawlDelaySeconds specDelaySeconds DEFAULT_POLL_DELAY_SECONDS
  cases j.recommended_pull_delay_ms with
  | none => rfl
  | some ms => by_cases h : ms = 0 <;> simp [h]

lemma scrapeDelaySeconds_eq_spec (r : ScrapeResult) :
    scrapeDelaySeconds r = specDelaySeconds r.recommended_pull_delay_ms := by
  unfold scrapeDelaySeconds specDelaySeconds DEFAULT_POLL_DELAY_SECONDS
  cases r.recommended_pull_delay_ms with
  | none => rfl
  | some ms => by_cases h : ms = 0 <;> simp [h]

/-! ## Claim theorems -/

/-- C1: in a run of the blocking `crawl` in which no fetched job snapshot is
terminal within the poll budget (at least one poll, default 100), `crawl`
returns the last (i.e. `max_polls`-th) fetched snapshot; reaching the budget
raises nothing in this path. -/
theorem crawl_budget_exhaustion_returns_last_snapshot
    (jobs : Nat → Job) (max_polls : Int)
    (hpos : 1 ≤ max_polls)
    (hnt : ∀ i, (jobs i).is_terminal = false) :
    (crawl_run (fun i => .ok (jobs i)) max_polls).result =
      .ok (jobs (max_polls.toNat - 1)) ∧
    (crawl_run (fun i => .ok (jobs i)) max_polls).fetches = max_polls.toNat := by
  have hn1 : 1 ≤ max_polls.toNat := by omega
  have hskip := crawlLoopAux_skip (fun i => .ok (jobs i)) jobs max_polls.toNat 0 0 none
      (fun i _ => rfl) (fun i _ => hnt _)
  simp only [Nat.add_zero, Nat.zero_add] at hskip
  unfold crawl_run
  rw [hskip, if_neg (by omega)]
  constructor
  · simp [crawlLoopAux]
  · simp [crawlLoopAux]

theorem crawl_budget_exhaustion_returns_last_snapshot_witness :
    (crawl_run (fun _ => .ok ⟨"job-1", "running", none⟩) 3).result =
      .ok ⟨"job-1", "running", none⟩ ∧
    (crawl_run (fun _ => .ok ⟨"job-1", "running", none⟩) 3).fetches = 3 :=
  crawl_budget_exhaustion_returns_last_snapshot
    (fun _ => ⟨"job-1", "running", none⟩) 3 (by decide) (fun _ => rfl)

/-- C9: calling the blocking `crawl` with `max_polls ≤ 0` skips the loop
body entirely, so the final `return job` reads a local that was never
assigned: the call raises `UnboundLocalError` after zero fetches and zero
sleeps, instead of returning a snapshot. -/
theorem crawl_nonpositive_budget_unbound_local
    (getJob : Nat → Except HttpError Job) (max_polls : Int)
    (h : max_polls ≤ 0) :
    crawl_run getJob max_polls =
      { result := .error (.unboundLocal "job"), fetches := 0, sleeps := [] } := by
  unfold crawl_run
  rw [show max_polls.toNat = 0 from by omega]
  rfl

theorem crawl_nonpositive_budget_unbound_local_witness :
    crawl_run (fun _ => .ok ⟨"j", "running", none⟩) 0 =
      { result := .error (.unboundLocal "job"), fetches := 0, sleeps := [] } :=
  crawl_nonpositive_budget_unbound_local _ 0 (by decide)

/-- C3: when the fetched snapshot sequence first turns terminal at index `k`
(within the poll budget), the blocking `crawl` returns that snapshot, issues
exactly `k + 1` fetches (none after the terminal one), and sleeps only for
the `k` non-terminal iterations before it. -/
theorem crawl_returns_at_first_terminal_fetch
    (jobs : Nat → Job) (max_polls : Int) (k : Nat)
    (hbefore : ∀ i, i < k → (jobs i).is_terminal = false)
    (hterm : (jobs k).is_terminal = true)
    (hk : (k : Int) < max_polls) :
    crawl_run (fun i => .ok (jobs i)) max_polls =
      { result := .ok (jobs k)
        fetches := k + 1
        sleeps := (List.range k).map (fun i => crawlDelaySeconds (jobs i)) } := by
  have hkn : k < max_polls.toNat := by omega
  have hskip := crawlLoopAux_skip (fun i => .ok (jobs i)) jobs k 0 (max_polls.toNat - k) none
      (fun i _ => rfl)
      (fun i hi => by rw [Nat.zero_add]; exact hbefore i hi)
  simp only [Nat.zero_add] at hskip
  have hone : crawlLoopAux (fun i => .ok (jobs i)) k (max_polls.toNat - k)
      (if k = 0 then none else some (jobs (k - 1))) =
      { result := .ok (jobs k), fetches := 1, sleeps := [] } := by
    rw [show max_polls.toNat - k = (max_polls.toNat - k - 1) + 1 from by omega]
    simp [crawlLoopAux, hterm]
  rw [hone] at hskip
  unfold crawl_run
  rw [show max_polls.toNat = k + (max_polls.toNat - k) from by omega, hskip]
  simp [Nat.add_comm]

theorem crawl_returns_at_first_terminal_fetch_witness :
    crawl_run
        (fun i => .ok (if i = 0 then ⟨"p", "pending", none⟩ else ⟨"d", "done", none⟩)) 5 =
      { result := .ok ⟨"d", "done", none⟩, fetches := 2, sleeps := [5] } :=
  crawl_returns_at_first_terminal_fetch
    (fun i => if i = 0 then ⟨"p", "pending", none⟩ else ⟨"d", "done", none⟩) 5 1
    (fun i hi => by
      have h0 : i = 0 := by omega
      subst h0; rfl)
    rfl (by decide)

/-- C2 (amended): when no fetched scrape result has status "done" or "error"
within the poll budget, the blocking `scrape` raises the budget-exhaustion
`RuntimeError` — whose message is the code's literal "Maximum number of
polls reached without completion" — rather than returning a value, after
exactly `max_polls` fetches. -/
theorem scrape_budget_exhaustion_raises
    (results : Nat → ScrapeResult) (max_polls : Int)
    (hnd : ∀ i, (results i).status ≠ "done" ∧ (results i).status ≠ "error") :
    (scrape_run (fun i => .ok (results i)) max_polls).result =
      .error (.runtimeError "Maximum number of polls reached without completion") ∧
    (scrape_run (fun i => .ok (results i)) max_polls).fetches = max_polls.toNat := by
  have hskip := scrapeLoopAux_skip (fun i => .ok (results i)) results max_polls.toNat 0 0
      (fun i _ => rfl) (fun i _ => hnd _)
  simp only [Nat.add_zero, Nat.zero_add] at hskip
  unfold scrape_run
  rw [hskip]
  constructor
  · simp [scrapeLoopAux]
  · simp [scrapeLoopAux]

theorem scrape_budget_exhaustion_raises_witness :
    (scrape_run (fun _ => .ok ⟨"s1", "pending", "sd", none, none⟩) 2).result =
      .error (.runtimeError "Maximum number of polls reached without completion") ∧
    (scrape_run (fun _ => .ok ⟨"s1", "pending", "sd", none, none⟩) 2).fetches = 2 :=
  scrape_budget_exhaustion_raises (fun _ => ⟨"s1", "pending", "sd", none, none⟩) 2
    (fun _ => ⟨(by decide : ("pending" : String) ≠ "done"),
               (by decide : ("pending" : String) ≠ "error")⟩)

/-- C2 counterexample: at a concrete never-terminal run the raised
budget-exhaustion message is the code's "Maximum number of polls reached
without completion"; the message "maximum polls reached" asserted by the
claim is neither equal to it nor contained in it. -/
theorem scrape_budget_message_counterexample :
    (scrape_run (fun _ => .ok ⟨"s2", "in_progress", "sd", none, none⟩) 1).result =
      .error (.runtimeError "Maximum number of polls reached without completion") ∧
    "Maximum number of polls reached without completion" ≠ "maximum polls reached" ∧
    strContains "Maximum number of polls reached without completion"
      "maximum polls reached" = false := by
  decide

/-- C7: when a fetched scrape result first has status "done" (at index `k`,
within budget, with no earlier "done"/"error"), the blocking `scrape`
returns exactly that result's `structured_data` payload — not the full
`ScrapeResult` snapshot, whose other fields do not appear in the return
value — after exactly `k + 1` fetches. -/
theorem scrape_done_returns_structured_data
    (results : Nat → ScrapeResult) (max_polls : Int) (k : Nat)
    (hbefore : ∀ i, i < k → (results i).status ≠ "done" ∧ (results i).status ≠ "error")
    (hdone : (results k).status = "done")
    (hk : (k : Int) < max_polls) :
    (scrape_run (fun i => .ok (results i)) max_polls).result =
      .ok (results k).structured_data ∧
    (scrape_run (fun i => .ok (results i)) max_polls).fetches = k + 1 := by
  have hkn : k < max_polls.toNat := by omega
  have hskip := scrapeLoopAux_skip (fun i => .ok (results i)) results k 0 (max_polls.toNat - k)
      (fun i _ => rfl)
      (fun i hi => by rw [Nat.zero_add]; exact hbefore i hi)
  simp only [Nat.zero_add] at hskip
  have hone : scrapeLoopAux (fun i => .ok (results i)) k (max_polls.toNat - k) =
      { result := .ok (results k).structured_data, fetches := 1, sleeps := [] } := by
    rw [show max_polls.toNat - k = (max_polls.toNat - k - 1) + 1 from by omega]
    simp [scrapeLoopAux, hdone]
  rw [hone] at hskip
  unfold scrape_run
  rw [show max_polls.toNat = k + (max_polls.toNat - k) from by omega, hskip]
  constructor
  · rfl
  · simp [Nat.add_comm]

theorem scrape_done_returns_structured_data_witness :
    (scrape_run (fun _ => .ok ⟨"s3", "done", "payload", none, none⟩) 1).result =
      .ok "payload" ∧
    (scrape_run (fun _ => .ok ⟨"s3", "done", "payload", none, none⟩) 1).fetches = 1 :=
  scrape_done_returns_structured_data (fun _ => ⟨"s3", "done", "payload", none, none⟩) 1 0
    (fun i hi => absurd hi (Nat.not_lt_zero i)) rfl (by decide)

/-- C5: when a fetched scrape result first has status "error" (at index `k`,
within budget), the blocking `scrape` raises a `RuntimeError` whose message
contains the server-supplied error text when that attribute is present, and
is the generic "Scraping failed: Unknown error" when it is absent. -/
theorem scrape_error_status_raises
    (results : Nat → ScrapeResult) (max_polls : Int) (k : Nat)
    (hbefore : ∀ i, i < k → (results i).status ≠ "done" ∧ (results i).status ≠ "error")
    (herr : (results k).status = "error")
    (hk : (k : Int) < max_polls) :
    (scrape_run (fun i => .ok (results i)) max_polls).result =
      .error (.runtimeError (scrapeErrorMessage (results k))) ∧
    (∀ e, (results k).error = some e →
      strContains (scrapeErrorMessage (results k)) e = true) ∧
    ((results k).error = none →
      scrapeErrorMessage (results k) = "Scraping failed: Unknown error") := by
  refine ⟨?_, ?_, ?_⟩
  · have hkn : k < max_polls.toNat := by omega
    have hskip := scrapeLoopAux_skip (fun i => .ok (results i)) results k 0 (max_polls.toNat - k)
        (fun i _ => rfl)
        (fun i hi => by rw [Nat.zero_add]; exact hbefore i hi)
    simp only [Nat.zero_add] at hskip
    have hnd : ((results k).status == "done") = false := by simp [herr]
    have hone : scrapeLoopAux (fun i => .ok (results i)) k (max_polls.toNat - k) =
        { result := .error (.runtimeError (scrapeErrorMessage (results k)))
          fetches := 1, sleeps := [] } := by
      rw [show max_polls.toNat - k = (max_polls.toNat - k - 1) + 1 from by omega]
      simp [scrapeLoopAux, herr]
    rw [hone] at hskip
    unfold scrape_run
    rw [show max_polls.toNat = k + (max_polls.toNat - k) from by omega, hskip]
  · intro e he
    unfold scrapeErrorMessage strContains
    rw [he]
    rw [String.data_append]
    exact listContains_append_self _ _
  · intro he
    unfold scrapeErrorMessage
    rw [he]
    rfl

theorem scrape_error_status_raises_witness :
    (scrape_run (fun _ => .ok ⟨"s4", "error", "sd", some "boom", none⟩) 1).result =
      .error (.runtimeError "Scraping failed: boom") ∧
    strContains "Scraping failed: boom" "boom" = true := by
  have h := scrape_error_status_raises (fun _ => ⟨"s4", "error", "sd", some "boom", none⟩) 1 0
    (fun i hi => absurd hi (Nat.not_lt_zero i)) rfl (by decide)
  exact ⟨h.1, h.2.1 "boom" rfl⟩

/-- C4: the inter-poll delay both loops compute agrees with the spec's rule
(`specDelaySeconds`): `recommended_pull_delay_ms / 1000` seconds when the
hint is present and nonzero, the fixed 5-second default when it is absent or
zero; and on every non-terminal iteration the slept delay is exactly that
value. -/
theorem delay_selection_matches_spec (j : Job) (r : ScrapeResult) :
    crawlDelaySeconds j = specDelaySeconds j.recommended_pull_delay_ms ∧
    scrapeDelaySeconds r = specDelaySeconds r.recommended_pull_delay_ms ∧
    (∀ (getJob : Nat → Except HttpError Job) (idx rem : Nat) (last : Option Job),
      getJob idx = .ok j → j.is_terminal = false →
      (crawlLoopAux getJob idx (rem + 1) last).sleeps.head? =
        some (specDelaySeconds j.recommended_pull_delay_ms)) ∧
    (∀ (getScrape : Nat → Except HttpError ScrapeResult) (idx rem : Nat),
      getScrape idx = .ok r → r.status ≠ "done" → r.status ≠ "error" →
      (scrapeLoopAux getScrape idx (rem + 1)).sleeps.head? =
        some (specDelaySeconds r.recommended_pull_delay_ms)) := by
  refine ⟨crawlDelaySeconds_eq_spec j, scrapeDelaySeconds_eq_spec r, ?_, ?_⟩
  · intro getJob idx rem last hok hnt
    simp [crawlLoopAux, hok, hnt, crawlDelaySeconds_eq_spec]
  · intro getScrape idx rem hok hnd hne
    simp [scrapeLoopAux, hok, hnd, hne, scrapeDelaySeconds_eq_spec]

theorem delay_selection_matches_spec_witness :
    (crawlLoopAux (fun _ => .ok ⟨"j5", "running", none⟩) 0 1 none).sleeps.head? =
      some 5 ∧
    (scrapeLoopAux (fun _ => .ok ⟨"s5", "pending", "sd", none, some 250⟩) 0 1).sleeps.head? =
      some (specDelaySeconds (some 250)) :=
  ⟨(delay_selection_matches_spec ⟨"j5", "running", none⟩
        ⟨"s5", "pending", "sd", none, some 250⟩).2.2.1
      (fun _ => .ok ⟨"j5", "running", none⟩) 0 0 none rfl rfl,
   (delay_selection_matches_spec ⟨"j5", "running", none⟩
        ⟨"s5", "pending", "sd", none, some 250⟩).2.2.2
      (fun _ => .ok ⟨"s5", "pending", "sd", none, some 250⟩) 0 0 rfl
      (by decide) (by decide)⟩

/-- C6 (amended): the crawl-start request body contains exactly the four
required fields plus those optional fields the caller supplied with a
non-empty (truthy) value; an optional field that was not supplied — or was
supplied as `None` or the empty string — does not appear under any key. -/
theorem crawl_async_payload_fields
    (url scrape_type : String) (items_limit : Int) (allow_subdomains : Bool)
    (webhook_url whitelist_regexp blacklist_regexp : Option String)
    (key : String) :
    key ∈ (crawl_async_payload url scrape_type items_limit allow_subdomains
        webhook_url whitelist_regexp blacklist_regexp).map Prod.fst ↔
      (key = "url" ∨ key = "scrape_type" ∨ key = "items_limit" ∨
       key = "allow_subdomains" ∨
       (key = "webhook_url" ∧ ∃ w, webhook_url = some w ∧ w ≠ "") ∨
       (key = "whitelist_regexp" ∧ ∃ w, whitelist_regexp = some w ∧ w ≠ "") ∨
       (key = "blacklist_regexp" ∧ ∃ b, blacklist_regexp = some b ∧ b ≠ "")) := by
  unfold crawl_async_payload
  cases webhook_url <;> cases whitelist_regexp <;> cases blacklist_regexp <;>
    simp_all <;> tauto

/-- C6 counterexample: the caller supplies `webhook_url` as the empty string
(an argument distinct from the not-supplied default `None`), yet the request
body contains no `webhook_url` key, contradicting the claim that every
supplied optional field appears. -/
theorem crawl_async_supplied_empty_field_counterexample :
    (some "" : Option String) ≠ (none : Option String) ∧
    "webhook_url" ∉ (crawl_async_payload "https://example.com" "html" 10 false
        (some "") none none).map Prod.fst := by
  decide

/-- C8: whichever request fails — crawl start, job fetch (also mid-loop),
job cancel, scrape start, scrape fetch (also mid-loop) — the transport
layer's error value `e` is surfaced to the caller unchanged (only injected
into the exception sum, never rewrapped or altered), the operation stops at
that request (`k + 1` fetches when the `k`-th poll fails — the failed
request is never retried), and no further sleep happens after the failure. -/
theorem transport_errors_propagate_unwrapped_no_retry
    (e : HttpError)
    (getJob : Nat → Except HttpError Job) (jobs : Nat → Job)
    (getScrape : Nat → Except HttpError ScrapeResult) (results : Nat → ScrapeResult)
    (max_polls : Int) (k : Nat) :
    crawl_async_model (.error e) = .error (.transport e) ∧
    get_job_model (.error e) = .error (.transport e) ∧
    cancel_job_model (.error e) = .error (.transport e) ∧
    scrape_async_model (.error e) = .error (.transport e) ∧
    get_scrape_model (.error e) = .error (.transport e) ∧
    crawl_model (.error e) getJob max_polls =
      { result := .error (.transport e), fetches := 0, sleeps := [] } ∧
    scrape_model (.error e) getScrape max_polls =
      { result := .error (.transport e), fetches := 0, sleeps := [] } ∧
    ((∀ i, i < k → getJob i = .ok (jobs i)) →
     (∀ i, i < k → (jobs i).is_terminal = false) →
     getJob k = .error e → (k : Int) < max_polls →
     crawl_run getJob max_polls =
       { result := .error (.transport e), fetches := k + 1,
         sleeps := (List.range k).map (fun i => crawlDelaySeconds (jobs i)) }) ∧
    ((∀ i, i < k → getScrape i = .ok (results i)) →
     (∀ i, i < k → (results i).status ≠ "done" ∧ (results i).status ≠ "error") →
     getScrape k = .error e → (k : Int) < max_polls →
     scrape_run getScrape max_polls =
       { result := .error (.transport e), fetches := k + 1,
         sleeps := (List.range k).map (fun i => scrapeDelaySeconds (results i)) }) := by
  refine ⟨rfl, rfl, rfl, rfl, rfl, rfl, rfl, ?_, ?_⟩
  · intro hok hnt herr hk
    have hkn : k < max_polls.toNat := by omega
    have hskip := crawlLoopAux_skip getJob jobs k 0 (max_polls.toNat - k) none
        (fun i hi => by rw [Nat.zero_add]; exact hok i hi)
        (fun i hi => by rw [Nat.zero_add]; exact hnt i hi)
    simp only [Nat.zero_add] at hskip
    have hone : crawlLoopAux getJob k (max_polls.toNat - k)
        (if k = 0 then none else some (jobs (k - 1))) =
        { result := .error (.transport e), fetches := 1, sleeps := [] } := by
      rw [show max_polls.toNat - k = (max_polls.toNat - k - 1) + 1 from by omega]
      simp [crawlLoopAux, herr]
    rw [hone] at hskip
    unfold crawl_run
    rw [show max_polls.toNat = k + (max_polls.toNat - k) from by omega, hskip]
    simp [Nat.add_comm]
  · intro hok hnd herr hk
    have hkn : k < max_polls.toNat := by omega
    have hskip := scrapeLoopAux_skip getScrape results k 0 (max_polls.toNat - k)
        (fun i hi => by rw [Nat.zero_add]; exact hok i hi)
        (fun i hi => by rw [Nat.zero_add]; exact hnd i hi)
    simp only [Nat.zero_add] at hskip
    have hone : scrapeLoopAux getScrape k (max_polls.toNat - k) =
        { result := .error (.transport e), fetches := 1, sleeps := [] } := by
      rw [show max_polls.toNat - k = (max_polls.toNat - k - 1) + 1 from by omega]
      simp [scrapeLoopAux, herr]
    rw [hone] at hskip
    unfold scrape_run
    rw [show max_polls.toNat = k + (max_polls.toNat - k) from by omega, hskip]
    simp [Nat.add_comm]

theorem transport_errors_propagate_unwrapped_no_retry_witness :
    crawl_run
        (fun i => if i = 0 then .ok ⟨"j8", "running", none⟩ else .error ⟨500, "boom"⟩) 5 =
      { result := .error (.transport ⟨500, "boom"⟩), fetches := 2, sleeps := [5] } ∧
    scrape_run
        (fun i => if i = 0 then .ok ⟨"s8", "pending", "sd", none, none⟩
                  else .error ⟨500, "boom"⟩) 5 =
      { result := .error (.transport ⟨500, "boom"⟩), fetches := 2, sleeps := [5] } := by
  have h := transport_errors_propagate_unwrapped_no_retry ⟨500, "boom"⟩
    (fun i => if i = 0 then .ok ⟨"j8", "running", none⟩ else .error ⟨500, "boom"⟩)
    (fun _ => ⟨"j8", "running", none⟩)
    (fun i => if i = 0 then .ok ⟨"s8", "pending", "sd", none, none⟩
              else .error ⟨500, "boom"⟩)
    (fun _ => ⟨"s8", "pending", "sd", none, none⟩) 5 1
  refine ⟨h.2.2.2.2.2.2.2.1 ?_ ?_ rfl (by decide), h.2.2.2.2.2.2.2.2 ?_ ?_ rfl (by decide)⟩
  · intro i hi
    have h0 : i = 0 := by omega
    subst h0; rfl
  · intro i hi
    have h0 : i = 0 := by omega
    subst h0; rfl
  · intro i hi
    have h0 : i = 0 := by omega
    subst h0; rfl
  · intro i hi
    have h0 : i = 0 := by omega
    subst h0
    exact ⟨(by decide : ("pending" : String) ≠ "done"),
           (by decide : ("pending" : String) ≠ "error")⟩

lemma rstripSlash_eq_self (s : String) (h : s.data.getLast? ≠ some '/') :
    rstripSlash s = s := by
  unfold rstripSlash
  apply String.ext
  show (s.data.reverse.dropWhile (· = '/')).reverse = s.data
  cases hr : s.data.reverse with
  | nil => simp_all
  | cons c t =>
    have hc : ¬(c = '/') := by
      intro hc
      apply h
      rw [List.getLast?_eq_head?_reverse, hr, hc]
      rfl
    rw [List.dropWhile_cons_of_neg (by simpa using hc), ← hr, List.reverse_reverse]

lemma splitSchemeSep_append (scheme rest : List Char) (h : ':' ∉ scheme) :
    splitSchemeSep (scheme ++ ':' :: '/' :: '/' :: rest) = some (scheme, rest) := by
  induction scheme with
  | nil =>
    simp only [List.nil_append]
    rw [splitSchemeSep]
    simp [startsList]
  | cons c cs ih =>
    have hc : ¬(c = ':') := fun hcc => h (hcc ▸ List.mem_cons_self c cs)
    have hmem : ':' ∉ cs := fun hm => h (List.mem_cons_of_mem c hm)
    simp only [List.cons_append]
    rw [splitSchemeSep]
    simp [startsList, hc, ih hmem]

lemma takeWhile_until_slash (host path : List Char) (h : '/' ∉ host) :
    (host ++ '/' :: path).takeWhile (· ≠ '/') = host := by
  induction host with
  | nil => simp
  | cons c cs ih =>
    have hc : ¬(c = '/') := fun hcc => h (hcc ▸ List.mem_cons_self c cs)
    have hmem : '/' ∉ cs := fun hm => h (List.mem_cons_of_mem c hm)
    have ih2 := ih hmem
    simp only [ne_eq, decide_not] at ih2
    simp [List.takeWhile_cons, hc, ih2]

/-- C10: every request URL is built by urljoin-ing the configured base URL
with the absolute path `"/{version}/<tail>"`, so RFC 3986 resolution keeps
only the base's scheme and host: for every base URL with a non-empty path,
requests go to `scheme://host/{version}/<tail>` — the base path is
discarded. -/
theorem request_url_discards_base_path
    (scheme host path version tail : String)
    (hs : ':' ∉ scheme.data)
    (hh : '/' ∉ host.data)
    (hp : path.data ≠ [])
    (hps : path.data.getLast? ≠ some '/') :
    requestUrl (scheme ++ "://" ++ host ++ "/" ++ path) version tail =
      scheme ++ "://" ++ host ++ "/" ++ version ++ "/" ++ tail := by
  have h1 : ("://" : String).data = [':', '/', '/'] := rfl
  have h2 : ("/" : String).data = ['/'] := rfl
  have hdata : (scheme ++ "://" ++ host ++ "/" ++ path).data =
      scheme.data ++ ':' :: '/' :: '/' :: (host.data ++ '/' :: path.data) := by
    simp [String.data_append, h1, h2]
  have hdata2 : (scheme ++ "://" ++ host ++ "/" ++ path).data =
      (scheme.data ++ [':', '/', '/'] ++ host.data ++ ['/']) ++ path.data := by
    simp [String.data_append, h1, h2]
  unfold requestUrl clientBaseUrl
  rw [rstripSlash_eq_self _ (by rw [hdata2, List.getLast?_append_of_ne_nil _ hp]; exact hps)]
  unfold urljoinModel
  rw [hdata, splitSchemeSep_append _ _ hs]
  simp only []
  rw [takeWhile_until_slash _ _ hh]
  apply String.ext
  simp [String.data_append, h1, h2]

theorem request_url_discards_base_path_witness :
    requestUrl "https://example.com/base" "v1" "crawl" =
      "https://example.com/v1/crawl" :=
  request_url_discards_base_path "https" "example.com" "base" "v1" "crawl"
    (by decide) (by decide) (by decide) (by decide)
